import Mathlib

/-!
  # Task-Manager backend: a shallow embedding of the domain engine

  The controllers of the repository (taskController.js, classController.js,
  notificationController.js) are embedded as pure Lean functions over an
  explicit relational store. Each controller returns an HTTP-style response
  record `(status, message, data)` together with the possibly-updated store.
  The error taxonomy of the specification maps onto the statuses the source
  actually emits: ValidationError is 400, NotFoundError is 404,
  ForbiddenError is 403, StoreError is 500.

  Ids (UUIDs in the source) are modelled as `Nat`; dates as `Nat` day
  numbers (the source compares ISO date strings, whose order is the
  calendar order); JavaScript falsiness of an optional string (`undefined`,
  `null`, `""`) is `strTruthy = false`. A supabase `.single()` or
  `.maybeSingle()` row fetch is `List.find?` on the corresponding table; an
  insert appends to the table. The CHECK constraints declared in
  src/supabase/migration.sql on tasks.status and tasks.priority are part of
  the store: a write violating them fails, which the controllers surface as
  status 500 ("Failed to ... task"), exactly as a supabase error does.
  `createNotification` swallows store errors in the source; the notification
  types dispatched by the engine all satisfy the notifications CHECK
  constraint, so its insert is modelled as always succeeding.
-/

namespace TMB

/-- A row of the users table, restricted to the fields the engine reads. -/
structure User where
  id : Nat
  name : String
  role : String
deriving Repr, DecidableEq

/-- A row of the classes table. -/
structure Klass where
  id : Nat
  name : String
  description : Option String
  invite_code : String
  teacher_id : Nat
deriving Repr, DecidableEq

/-- A row of the class_members join table. -/
structure ClassMember where
  class_id : Nat
  user_id : Nat
deriving Repr, DecidableEq

/-- A row of the tasks table. -/
structure Task where
  id : Nat
  title : String
  description : Option String
  due_date : Option Nat
  priority : String
  status : String
  created_by : Nat
  assignee_id : Option Nat
  class_id : Option Nat
  created_at : Nat
deriving Repr, DecidableEq

/-- A row of the notifications table. -/
structure Notification where
  user_id : Nat
  type : String
  title : String
  message : String
  task_id : Option Nat
  class_id : Option Nat
  is_read : Bool
deriving Repr, DecidableEq

/-- The relational store. -/
structure Store where
  users : List User
  classes : List Klass
  class_members : List ClassMember
  tasks : List Task
  notifications : List Notification
deriving Repr, DecidableEq

/-- JavaScript truthiness of an optional string: `undefined`, `null` and
`""` are falsy. -/
def strTruthy : Option String → Bool
  | none => false
  | some s => !s.isEmpty

/-- The CHECK constraint on tasks.status from src/supabase/migration.sql. -/
def statusOk (v : String) : Bool :=
  v == "todo" || v == "in-progress" || v == "completed"

/-- The CHECK constraint on tasks.priority from src/supabase/migration.sql. -/
def priorityOk (v : String) : Bool :=
  v == "low" || v == "medium" || v == "high"

/-- Insert a notification row (`createNotification` in the source). -/
def pushNotif (s : Store) (n : Notification) : Store :=
  { s with notifications := s.notifications ++ [n] }

/-- A request body for createTask/updateTask. Fields absent from the JSON
body are `none`. `created_by` may be present in a request, but no
controller ever reads it (createTask also never reads `status`). -/
structure TaskPayload where
  title : Option String
  description : Option String
  due_date : Option Nat
  priority : Option String
  status : Option String
  created_by : Option Nat
  assignee_id : Option Nat
  class_id : Option Nat
deriving Repr, DecidableEq

/-- A controller response carrying an optional task. -/
structure TaskResp where
  status : Nat
  message : String
  task : Option Task
deriving Repr, DecidableEq

/-- A fresh primary key for a task insert. -/
def nextTaskId (s : Store) : Nat := s.tasks.foldl (fun m t => max m t.id) 0 + 1

/-- `description || null` from the source: an empty string becomes null. -/
def orNullStr : Option String → Option String
  | none => none
  | some v => if v.isEmpty then none else some v

/-- The task_assigned notification dispatched at the end of createTask. -/
def mkAssignedNotif (t : Task) (aid : Nat) : Notification :=
  { user_id := aid, type := "task_assigned", title := "New Task Assigned",
    message := "You\x27ve been assigned a new task: \"" ++ t.title ++ "\"",
    task_id := some t.id, class_id := t.class_id, is_read := false }

/-- The insert half of createTask: the store applies its CHECK constraints
(a violation is the 500 "Failed to create task" branch of the source), the
row is appended, and the assignee, when present, is notified. -/
def insertTask (t : Task) (s : Store) : TaskResp × Store :=
  if statusOk t.status && priorityOk t.priority then
    let s1 := { s with tasks := s.tasks ++ [t] }
    let s2 := match t.assignee_id with
      | some aid => pushNotif s1 (mkAssignedNotif t aid)
      | none => s1
    (⟨201, "Task created successfully", some t⟩, s2)
  else (⟨500, "Failed to create task", none⟩, s)

/-- The taskData object built by createTask: status forced to "todo" and
created_by forced to the acting user, never read from the payload. -/
def buildTaskData (actor : User) (p : TaskPayload) (s : Store) : Task :=
  { id := nextTaskId s,
    title := p.title.getD "",
    description := orNullStr p.description,
    due_date := p.due_date,
    priority := match p.priority with
      | some v => if v.isEmpty then "medium" else v
      | none => "medium",
    status := "todo",
    created_by := actor.id,
    assignee_id := p.assignee_id,
    class_id := p.class_id,
    created_at := s.tasks.length }

/-- The tail of createTask after the title and class checks: build taskData,
verify the assignee exists when given, insert. -/
def createTaskInsert (actor : User) (p : TaskPayload) (s : Store) : TaskResp × Store :=
  match p.assignee_id with
  | some aid =>
    if (s.users.find? (fun u => u.id == aid)).isNone then
      (⟨400, "Assignee not found", none⟩, s)
    else insertTask (buildTaskData actor p s) s
  | none => insertTask (buildTaskData actor p s) s

/-- createTask from src/controllers/taskController.js: title required; when
class_id is given the class must exist and, unless the actor is an admin,
be owned by the actor; then `createTaskInsert`. -/
def createTask (actor : User) (p : TaskPayload) (s : Store) : TaskResp × Store :=
  if !(strTruthy p.title) then (⟨400, "Title is required", none⟩, s)
  else match p.class_id with
  | some cid =>
    (match s.classes.find? (fun c => c.id == cid) with
     | none => (⟨400, "Invalid class", none⟩, s)
     | some cls =>
       if actor.role != "admin" && cls.teacher_id != actor.id then
         (⟨400, "You don\x27t own this class", none⟩, s)
       else createTaskInsert actor p s)
  | none => createTaskInsert actor p s

/-- The query parameters of getTasks with their defaults. -/
structure TaskQuery where
  status : Option String
  priority : Option String
  search : Option String
  class_id : Option Nat
  page : Nat
  limit : Nat
deriving Repr, DecidableEq

/-- getTasks with no query parameters: page=1, limit=10. -/
def defaultTaskQuery : TaskQuery :=
  { status := none, priority := none, search := none, class_id := none,
    page := 1, limit := 10 }

/-- Character-list prefix test. -/
def leadsWith : List Char → List Char → Bool
  | [], _ => true
  | _ :: _, [] => false
  | a :: as, b :: bs => a == b && leadsWith as bs

/-- Character-list substring test. -/
def hasSub (needle : List Char) : List Char → Bool
  | [] => leadsWith needle []
  | c :: rest => leadsWith needle (c :: rest) || hasSub needle rest

/-- Case-insensitive substring test (`ilike %search%`). -/
def containsCI (hay needle : String) : Bool :=
  hasSub (needle.toLower).toList (hay.toLower).toList

/-- Insert a task into a list sorted by created_at descending. -/
def insertDesc (t : Task) : List Task → List Task
  | [] => [t]
  | x :: xs => if x.created_at ≤ t.created_at then t :: x :: xs else x :: insertDesc t xs

/-- Sort by created_at descending (`order("created_at", ascending: false)`). -/
def sortByCreatedAtDesc : List Task → List Task
  | [] => []
  | x :: xs => insertDesc x (sortByCreatedAtDesc xs)

/-- getTasks from src/controllers/taskController.js: teachers AND admins
see only tasks they created, students tasks assigned to them; then the
class/status/priority/search filters, created_at-descending order, and the
`range(from, to)` page slice. -/
def getTasksList (actor : User) (q : TaskQuery) (s : Store) : List Task :=
  let base := if actor.role == "teacher" || actor.role == "admin" then
      s.tasks.filter (fun t => t.created_by == actor.id)
    else
      s.tasks.filter (fun t => t.assignee_id == some actor.id)
  let f1 := match q.class_id with
    | some c => base.filter (fun t => t.class_id == some c)
    | none => base
  let f2 := match q.status with
    | some v => if !v.isEmpty && v != "all" then f1.filter (fun t => t.status == v) else f1
    | none => f1
  let f3 := match q.priority with
    | some v => if !v.isEmpty && v != "all" then f2.filter (fun t => t.priority == v) else f2
    | none => f2
  let f4 := match q.search with
    | some v => if !v.isEmpty then f3.filter (fun t => containsCI t.title v) else f3
    | none => f3
  ((sortByCreatedAtDesc f4).drop ((q.page - 1) * q.limit)).take q.limit

/-- getTask from src/controllers/taskController.js. -/
def getTask (actor : User) (taskId : Nat) (s : Store) : TaskResp :=
  match s.tasks.find? (fun t => t.id == taskId) with
  | none => ⟨404, "Task not found", none⟩
  | some task =>
    if actor.role == "student" && task.assignee_id != some actor.id then
      ⟨403, "Forbidden — you can only view tasks assigned to you", none⟩
    else if actor.role == "teacher" && task.created_by != actor.id then
      ⟨403, "Forbidden — you can only view tasks you created", none⟩
    else ⟨200, "", some task⟩

/-- The display name used in the task_completed notification: the acting
student looked up in users, with "A student" as the falsy fallback. -/
def studentDisplayName (s : Store) (actor : User) : String :=
  match s.users.find? (fun u => u.id == actor.id) with
  | some u => if u.name.isEmpty then "A student" else u.name
  | none => "A student"

/-- The task_completed notification dispatched by the student branch of
updateTask. -/
def mkCompletedNotif (studentName : String) (t : Task) (creator : Nat) : Notification :=
  { user_id := creator, type := "task_completed", title := "Task Completed",
    message := studentName ++ " completed the task: \"" ++ t.title ++ "\"",
    task_id := some t.id, class_id := none, is_read := false }

/-- The sparse teacher/admin updateData applied to a task row: exactly the
fields present in the payload are overwritten. -/
def applyUpdate (p : TaskPayload) (t : Task) : Task :=
  let t1 := match p.title with | some v => { t with title := v } | none => t
  let t2 := match p.description with | some v => { t1 with description := some v } | none => t1
  let t3 := match p.due_date with | some v => { t2 with due_date := some v } | none => t2
  let t4 := match p.priority with | some v => { t3 with priority := v } | none => t3
  let t5 := match p.status with | some v => { t4 with status := v } | none => t4
  let t6 := match p.assignee_id with | some v => { t5 with assignee_id := some v } | none => t5
  match p.class_id with | some v => { t6 with class_id := some v } | none => t6

/-- `Object.keys(updateData).length > 0`: at least one updatable field is
present in the payload. -/
def hasUpdateField (p : TaskPayload) : Bool :=
  p.title.isSome || p.description.isSome || p.due_date.isSome || p.priority.isSome ||
  p.status.isSome || p.assignee_id.isSome || p.class_id.isSome

/-- Store CHECK constraints evaluated on a teacher/admin updateData. -/
def updateChecksOk (p : TaskPayload) : Bool :=
  (match p.status with | some v => statusOk v | none => true) &&
  (match p.priority with | some v => priorityOk v | none => true)

/-- updateTask from src/controllers/taskController.js. Student branch:
must be the assignee, must send a truthy status, the store CHECK applies
(500 on violation), and when the new status is "completed" a task_completed
notification goes to the creator. Teacher/admin branch: creator-or-admin,
sparse update of the seven updatable fields, empty updateData is 400. -/
def updateTask (actor : User) (taskId : Nat) (p : TaskPayload) (s : Store) :
    TaskResp × Store :=
  match s.tasks.find? (fun t => t.id == taskId) with
  | none => (⟨404, "Task not found", none⟩, s)
  | some existingTask =>
    if actor.role == "student" then
      if existingTask.assignee_id != some actor.id then
        (⟨403, "Forbidden — you can only update tasks assigned to you", none⟩, s)
      else if !(strTruthy p.status) then
        (⟨400, "Students can only update task status", none⟩, s)
      else
        let v := p.status.getD ""
        if statusOk v then
          let task := { existingTask with status := v }
          let s1 := { s with
            tasks := s.tasks.map (fun t => if t.id == taskId then { t with status := v } else t) }
          let s2 := if v == "completed" && existingTask.created_by != 0 then
              pushNotif s1 (mkCompletedNotif (studentDisplayName s actor) task existingTask.created_by)
            else s1
          (⟨200, "Task status updated", some task⟩, s2)
        else (⟨500, "Failed to update task", none⟩, s)
    else if existingTask.created_by != actor.id && actor.role != "admin" then
      (⟨403, "Forbidden — you can only edit tasks you created", none⟩, s)
    else if !(hasUpdateField p) then
      (⟨400, "No fields to update", none⟩, s)
    else if updateChecksOk p then
      (⟨200, "Task updated successfully", some (applyUpdate p existingTask)⟩,
       { s with tasks := s.tasks.map (fun t => if t.id == taskId then applyUpdate p t else t) })
    else (⟨500, "Failed to update task", none⟩, s)

/-- A response with no data payload. -/
structure Resp where
  status : Nat
  message : String
deriving Repr, DecidableEq

/-- deleteTask from src/controllers/taskController.js: creator or admin. -/
def deleteTask (actor : User) (taskId : Nat) (s : Store) : Resp × Store :=
  match s.tasks.find? (fun t => t.id == taskId) with
  | none => (⟨404, "Task not found"⟩, s)
  | some existingTask =>
    if existingTask.created_by != actor.id && actor.role != "admin" then
      (⟨403, "Forbidden — you can only delete tasks you created"⟩, s)
    else
      (⟨200, "Task deleted successfully"⟩,
       { s with tasks := s.tasks.filter (fun t => !(t.id == taskId)) })

/-- JavaScript String.prototype.trim: whitespace stripped from both ends. -/
def jsTrim (s : String) : String :=
  ⟨((s.data.dropWhile Char.isWhitespace).reverse.dropWhile Char.isWhitespace).reverse⟩

/-- A response carrying an optional class (joinClass). -/
structure ClassResp where
  status : Nat
  message : String
  cls : Option Klass
deriving Repr, DecidableEq

/-- joinClass from src/controllers/classController.js: code required, class
looked up by trimmed invite code (404 "Invalid invite code" when absent),
the own teacher of the class is refused with 400, an existing member is refused
with 400 "You are already a member of this class", otherwise one membership
row is inserted and the class returned. -/
def joinClass (actor : User) (invite_code : Option String) (s : Store) :
    ClassResp × Store :=
  if !(strTruthy invite_code) then (⟨400, "Invite code is required", none⟩, s)
  else
    let code := jsTrim (invite_code.getD "")
    match s.classes.find? (fun c => c.invite_code == code) with
    | none => (⟨404, "Invalid invite code", none⟩, s)
    | some cls =>
      if cls.teacher_id == actor.id then
        (⟨400, "You are the teacher of this class", none⟩, s)
      else if (s.class_members.find? (fun m => m.class_id == cls.id && m.user_id == actor.id)).isSome then
        (⟨400, "You are already a member of this class", none⟩, s)
      else
        (⟨200, "Joined class \"" ++ cls.name ++ "\" successfully", some cls⟩,
         { s with class_members := s.class_members ++ [⟨cls.id, actor.id⟩] })

/-- A getClass response: on success the class with its membership rows. -/
structure GetClassResp where
  status : Nat
  message : String
  members : Option (List ClassMember)
deriving Repr, DecidableEq

/-- getClass from src/controllers/classController.js: 404 when absent;
teachers are refused on classes they do not own; students are refused
unless a membership row for (class, student) exists; admins pass. -/
def getClass (actor : User) (classId : Nat) (s : Store) : GetClassResp :=
  match s.classes.find? (fun c => c.id == classId) with
  | none => ⟨404, "Class not found", none⟩
  | some cls =>
    if actor.role == "teacher" && cls.teacher_id != actor.id then
      ⟨403, "Forbidden", none⟩
    else if actor.role == "student" &&
        (s.class_members.find? (fun m => m.class_id == classId && m.user_id == actor.id)).isNone then
      ⟨403, "Forbidden — you are not a member of this class", none⟩
    else
      ⟨200, "", some (s.class_members.filter (fun m => m.class_id == classId))⟩

/-- getClassMembers from src/controllers/classController.js: the membership
rows of the class joined to users. The actor is never consulted — the
handler performs no authorization of any kind. -/
def getClassMembers (_actor : User) (classId : Nat) (s : Store) : Nat × List User :=
  (200,
   (s.class_members.filter (fun m => m.class_id == classId)).filterMap
     (fun m => s.users.find? (fun u => u.id == m.user_id)))

/-- Modelled from the spec: the class_members schema (not under src/ —
src/supabase/migration.sql declares only users, tasks and notifications)
carries the relational cascade the spec describes: deleting a class removes
the class row and every membership row referencing it. -/
def dbDeleteClass (classId : Nat) (s : Store) : Store :=
  { s with classes := s.classes.filter (fun c => !(c.id == classId)),
           class_members := s.class_members.filter (fun m => !(m.class_id == classId)) }

/-- The detach applied by deleteClass to each task row referencing the
class: class_id is nulled, every other field kept. -/
def detachTask (classId : Nat) (t : Task) : Task :=
  if t.class_id == some classId then { t with class_id := none } else t

/-- deleteClass from src/controllers/classController.js: owner or admin;
first nulls class_id on every task referencing the class, then deletes the
class row (membership rows go with it via the store cascade). -/
def deleteClass (actor : User) (classId : Nat) (s : Store) : Resp × Store :=
  match s.classes.find? (fun c => c.id == classId) with
  | none => (⟨404, "Class not found"⟩, s)
  | some cls =>
    if cls.teacher_id != actor.id && actor.role != "admin" then
      (⟨403, "Forbidden"⟩, s)
    else
      let s1 := { s with tasks := s.tasks.map (detachTask classId) }
      (⟨200, "Class deleted successfully"⟩, dbDeleteClass classId s1)

/-- The deduplication predicate of checkOverdueTasks: an existing
notification row with this task id, type task_overdue, addressed to the
creator of the task. -/
def overdueMatch (t : Task) (n : Notification) : Bool :=
  n.task_id == some t.id && n.type == "task_overdue" && n.user_id == t.created_by

/-- The task_overdue notification dispatched by checkOverdueTasks. -/
def mkOverdueNotif (t : Task) : Notification :=
  { user_id := t.created_by, type := "task_overdue", title := "Task Overdue",
    message := "\"" ++ t.title ++ "\" is past its due date (" ++
      (match t.due_date with | some d => toString d | none => "null") ++
      ") and hasn\x27t been completed yet.",
    task_id := some t.id, class_id := none, is_read := false }

/-- The overdue-task selection of checkOverdueTasks:
`lt("due_date", today)` (a null due date never compares) and
`neq("status", "completed")`. -/
def isOverdue (today : Nat) (t : Task) : Bool :=
  (match t.due_date with | some d => decide (d < today) | none => false) &&
  t.status != "completed"

/-- The dispatch loop of checkOverdueTasks: for each overdue task, dispatch
a task_overdue notification to its creator unless one already exists,
counting the new dispatches. The store is threaded because each check sees
the notifications inserted by the previous iterations. -/
def scanLoop : List Task → Nat → Store → Nat × Store
  | [], n, st => (n, st)
  | t :: rest, n, st =>
    if st.notifications.any (overdueMatch t) then scanLoop rest n st
    else scanLoop rest (n + 1) (pushNotif st (mkOverdueNotif t))

/-- checkOverdueTasks from src/controllers/notificationController.js:
select the overdue incomplete tasks, run the deduplicated dispatch loop,
return the count of newly dispatched notifications and the new store. -/
def checkOverdueTasks (today : Nat) (s : Store) : Nat × Store :=
  scanLoop (s.tasks.filter (isOverdue today)) 0 s

/-! ## Concrete fixtures used by witnesses and counterexamples -/

/-- A teacher with id 1. -/
def tch1 : User := ⟨1, "T1", "teacher"⟩

/-- A second teacher, id 5. -/
def tch2 : User := ⟨5, "T2", "teacher"⟩

/-- A student with id 2. -/
def stu1 : User := ⟨2, "S1", "student"⟩

/-- A second student, id 3, member of nothing. -/
def stu2 : User := ⟨3, "S2", "student"⟩

/-- An admin with id 4. -/
def adm1 : User := ⟨4, "Admin", "admin"⟩

/-- A class owned by teacher 1 with invite code "abc12345". -/
def klass1 : Klass := ⟨1, "Class One", none, "abc12345", 1⟩

/-- A task created by teacher 1, assigned to student 2. -/
def baseTask : Task := ⟨1, "orig", none, none, "medium", "todo", 1, some 2, none, 0⟩

/-- A payload carrying only a status field. -/
def statusPayload (v : String) : TaskPayload :=
  { title := none, description := none, due_date := none, priority := none,
    status := some v, created_by := none, assignee_id := none, class_id := none }

/-- The empty payload. -/
def emptyPayload : TaskPayload := statusPayload "dummy"

/-- A store with one task (created by teacher 1, assigned to student 2). -/
def store2 : Store := ⟨[tch1, stu1], [], [], [baseTask], []⟩

/-- A student payload that also tries to rewrite the title. -/
def payload2 : TaskPayload :=
  { title := some "hacked", description := none, due_date := none, priority := none,
    status := some "in-progress", created_by := none, assignee_id := none, class_id := none }

/-- The store of the C4 counterexample: the task is already completed and
its completion notification was already dispatched. -/
def store4 : Store :=
  ⟨[tch1, stu1], [], [], [{ baseTask with status := "completed" }],
   [⟨1, "task_completed", "Task Completed", "S1 completed the task: \"orig\"", some 1, none, false⟩]⟩

/-- The store of the C3 counterexample: one task created by teacher 1,
no task created by the admin. -/
def store3 : Store := ⟨[tch1, adm1], [], [], [{ baseTask with assignee_id := none }], []⟩

/-- The store of the class counterexamples: class 1 owned by teacher 1,
student 2 is its only member, student 3 is no member. -/
def store5 : Store := ⟨[tch1, stu1, stu2], [klass1], [⟨1, 2⟩], [], []⟩

/-- A payload creating a plain task, carrying attacker-chosen status and
created_by values that the controller must ignore. -/
def payload8 : TaskPayload :=
  { title := some "new task", description := none, due_date := none, priority := none,
    status := some "completed", created_by := some 99, assignee_id := none, class_id := none }

/-- The store of the C9 witness: class 1 with a member and three tasks
referencing it. -/
def store9 : Store :=
  ⟨[tch1, stu1], [klass1], [⟨1, 2⟩],
   [{ baseTask with id := 1, class_id := some 1 },
    { baseTask with id := 2, class_id := some 1 },
    { baseTask with id := 3, class_id := some 1 }], []⟩

/-- The store of the C1 witness: one overdue task, one fresh task, no
notifications yet. -/
def store1 : Store :=
  ⟨[tch1, stu1], [], [],
   [{ baseTask with id := 1, due_date := some 5, status := "todo" },
    { baseTask with id := 2, due_date := some 20, status := "todo" }], []⟩

/-! ## Helper lemmas -/

/-- The status field of a built taskData is always "todo". -/
theorem buildTaskData_status (actor : User) (p : TaskPayload) (s : Store) :
    (buildTaskData actor p s).status = "todo" := rfl

/-- The created_by field of a built taskData is always the actor. -/
theorem buildTaskData_created_by (actor : User) (p : TaskPayload) (s : Store) :
    (buildTaskData actor p s).created_by = actor.id := rfl

/-- A successful insertTask appends exactly its row and returns it. -/
theorem insertTask_201 (t : Task) (s : Store)
    (h : (insertTask t s).1.status = 201) :
    (insertTask t s).2.tasks = s.tasks ++ [t] ∧ (insertTask t s).1.task = some t := by
  cases hc : statusOk t.status && priorityOk t.priority with
  | false => simp [insertTask, hc] at h
  | true => cases hA : t.assignee_id <;> simp [insertTask, hc, hA, pushNotif]

/-- A successful createTaskInsert appends exactly the built taskData. -/
theorem createTaskInsert_201 (actor : User) (p : TaskPayload) (s : Store)
    (h : (createTaskInsert actor p s).1.status = 201) :
    (createTaskInsert actor p s).2.tasks = s.tasks ++ [buildTaskData actor p s] ∧
    (createTaskInsert actor p s).1.task = some (buildTaskData actor p s) := by
  cases hA : p.assignee_id with
  | none =>
    simp only [createTaskInsert, hA] at h ⊢
    exact insertTask_201 _ _ h
  | some aid =>
    simp only [createTaskInsert, hA] at h ⊢
    cases hU : (s.users.find? (fun u => u.id == aid)).isNone with
    | true => simp [hU] at h
    | false =>
      simp only [hU, Bool.false_eq_true, if_false] at h ⊢
      exact insertTask_201 _ _ h

/-- A successful createTask appends exactly the built taskData. -/
theorem createTask_201 (actor : User) (p : TaskPayload) (s : Store)
    (h : (createTask actor p s).1.status = 201) :
    (createTask actor p s).2.tasks = s.tasks ++ [buildTaskData actor p s] ∧
    (createTask actor p s).1.task = some (buildTaskData actor p s) := by
  cases hT : strTruthy p.title with
  | false => simp [createTask, hT] at h
  | true =>
    simp only [createTask, hT, Bool.not_true, Bool.false_eq_true, if_false] at h ⊢
    cases hC : p.class_id with
    | none =>
      simp only [hC] at h ⊢
      exact createTaskInsert_201 _ _ _ h
    | some cid =>
      simp only [hC] at h ⊢
      cases hF : s.classes.find? (fun c => c.id == cid) with
      | none => simp [hF] at h
      | some cls =>
        simp only [hF] at h ⊢
        cases hO : actor.role != "admin" && cls.teacher_id != actor.id with
        | true => simp [hO] at h
        | false =>
          simp only [hO, Bool.false_eq_true, if_false] at h ⊢
          exact createTaskInsert_201 _ _ _ h

/-! ## C7: the class checks of createTask -/

/-- C7: with a truthy title and class_id present, createTask fails with 400
"Invalid class" when the class is absent; with 400 "You don't own this
class" when the actor is no admin and does not own the class; and an admin
is exempt from the ownership condition (with no assignee and no priority in
the payload the create then succeeds with 201). -/
theorem createTask_class_check (actor : User) (p : TaskPayload) (s : Store) (cid : Nat)
    (hTitle : strTruthy p.title = true) (hCid : p.class_id = some cid) :
    (s.classes.find? (fun c => c.id == cid) = none →
      (createTask actor p s).1 = ⟨400, "Invalid class", none⟩ ∧
      (createTask actor p s).2 = s)
    ∧ (∀ cls, s.classes.find? (fun c => c.id == cid) = some cls →
        actor.role ≠ "admin" → cls.teacher_id ≠ actor.id →
        (createTask actor p s).1 = ⟨400, "You don\x27t own this class", none⟩ ∧
        (createTask actor p s).2 = s)
    ∧ (∀ cls, s.classes.find? (fun c => c.id == cid) = some cls →
        actor.role = "admin" → p.assignee_id = none → p.priority = none →
        (createTask actor p s).1.status = 201) := by
  refine ⟨fun hF => ?_, fun cls hF hR hO => ?_, fun cls hF hR hA hP => ?_⟩
  · simp [createTask, hTitle, hCid, hF]
  · simp [createTask, hTitle, hCid, hF, hR, hO]
  · simp [createTask, hTitle, hCid, hF, hR, createTaskInsert, hA, insertTask,
      buildTaskData, hP, statusOk, priorityOk]

/-- Witness for C7 at a concrete input: teacher 2 does not own class 1, the
admin does not either but is exempt. -/
theorem createTask_class_check_witness :
    (strTruthy (statusPayload "x").title = false) ∧
    (strTruthy { (statusPayload "x") with title := some "t" }.title = true ∧
      ({ (statusPayload "x") with title := some "t", class_id := some 1 } : TaskPayload).class_id = some 1) ∧
    ((createTask tch2 { (statusPayload "x") with title := some "t", class_id := some 1 } store5).1 =
      ⟨400, "You don\x27t own this class", none⟩ ∧
     (createTask adm1 { (statusPayload "x") with title := some "t", class_id := some 1, status := none } store5).1.status = 201) := by
  refine ⟨by decide, ⟨by decide, by decide⟩, ?_, ?_⟩
  · exact ((createTask_class_check tch2 _ store5 1 (by decide) (by decide)).2.1
      klass1 (by decide) (by decide) (by decide)).1
  · exact (createTask_class_check adm1 _ store5 1 (by decide) (by decide)).2.2
      klass1 (by decide) (by decide) (by decide) (by decide)

/-! ## C8: server-authoritative fields of createTask -/

/-- C8: every successful createTask stores exactly one new task whose
status is "todo" and whose created_by is the acting user, regardless of the
status or created_by carried by the payload. -/
theorem createTask_server_fields (actor : User) (p : TaskPayload) (s : Store)
    (h : (createTask actor p s).1.status = 201) :
    ∃ t : Task, (createTask actor p s).2.tasks = s.tasks ++ [t] ∧
      t.status = "todo" ∧ t.created_by = actor.id ∧
      (createTask actor p s).1.task = some t := by
  obtain ⟨h1, h2⟩ := createTask_201 actor p s h
  exact ⟨buildTaskData actor p s, h1, rfl, rfl, h2⟩

/-- Witness for C8: a payload that smuggles status "completed" and
created_by 99 still yields a stored task with status "todo" and
created_by 1. -/
theorem createTask_server_fields_witness :
    (createTask tch1 payload8 store2).1.status = 201 ∧
    ∃ t : Task, (createTask tch1 payload8 store2).2.tasks = store2.tasks ++ [t] ∧
      t.status = "todo" ∧ t.created_by = tch1.id ∧
      (createTask tch1 payload8 store2).1.task = some t :=
  ⟨by decide, createTask_server_fields tch1 payload8 store2 (by decide)⟩

/-! ## Reduction lemmas for updateTask -/

/-- A status accepted by the store CHECK is never the empty string. -/
theorem statusOk_isEmpty_false (v : String) (h : statusOk v = true) :
    v.isEmpty = false := by
  simp only [statusOk, Bool.or_eq_true, beq_iff_eq] at h
  rcases h with (h | h) | h <;> subst h <;> decide

/-- The student branch of updateTask on an assigned task with a valid
status in the payload: the task row gets the new status, and exactly when
the new status is "completed" the completion notification is dispatched. -/
theorem updateTask_student_ok (actor : User) (taskId : Nat) (p : TaskPayload)
    (s : Store) (t : Task) (v : String)
    (hRole : actor.role = "student")
    (hFind : s.tasks.find? (fun x => x.id == taskId) = some t)
    (hAsn : t.assignee_id = some actor.id)
    (hv : p.status = some v) (hOk : statusOk v = true) :
    updateTask actor taskId p s =
      (⟨200, "Task status updated", some { t with status := v }⟩,
       let s1 : Store := { s with
         tasks := s.tasks.map (fun x => if x.id == taskId then { x with status := v } else x) }
       if v == "completed" && t.created_by != 0 then
         pushNotif s1 (mkCompletedNotif (studentDisplayName s actor) { t with status := v } t.created_by)
       else s1) := by
  have hE : v.isEmpty = false := statusOk_isEmpty_false v hOk
  simp only [updateTask, hFind, hRole, beq_self_eq_true, if_true, hAsn, bne_self_eq_false,
    Bool.false_eq_true, if_false, hv, strTruthy, hE, Bool.not_false, Bool.not_true,
    Option.getD_some, hOk, if_true]

/-- The student branch of updateTask with no (truthy) status in the
payload: 400 and an unchanged store, whatever else the payload carries. -/
theorem updateTask_student_nostatus (actor : User) (taskId : Nat) (p : TaskPayload)
    (s : Store) (t : Task)
    (hRole : actor.role = "student")
    (hFind : s.tasks.find? (fun x => x.id == taskId) = some t)
    (hAsn : t.assignee_id = some actor.id)
    (hS : strTruthy p.status = false) :
    updateTask actor taskId p s =
      (⟨400, "Students can only update task status", none⟩, s) := by
  simp only [updateTask, hFind, hRole, beq_self_eq_true, if_true, hAsn, bne_self_eq_false,
    Bool.false_eq_true, if_false, hS, Bool.not_false, if_true]

/-- The student branch of updateTask with a nonempty status the store CHECK
rejects: 500 and an unchanged store. -/
theorem updateTask_student_badstatus (actor : User) (taskId : Nat) (p : TaskPayload)
    (s : Store) (t : Task) (v : String)
    (hRole : actor.role = "student")
    (hFind : s.tasks.find? (fun x => x.id == taskId) = some t)
    (hAsn : t.assignee_id = some actor.id)
    (hv : p.status = some v) (hE : v.isEmpty = false) (hOk : statusOk v = false) :
    updateTask actor taskId p s = (⟨500, "Failed to update task", none⟩, s) := by
  simp only [updateTask, hFind, hRole, beq_self_eq_true, if_true, hAsn, bne_self_eq_false,
    Bool.false_eq_true, if_false, hv, strTruthy, hE, Bool.not_false, Bool.not_true,
    Option.getD_some, hOk, if_true]

/-- The teacher/admin branch of updateTask for an authorized actor with a
nonempty updateData passing the store CHECK: the sparse update is applied. -/
theorem updateTask_nonstudent_ok (actor : User) (taskId : Nat) (p : TaskPayload)
    (s : Store) (t : Task)
    (hNotStu : actor.role ≠ "student")
    (hFind : s.tasks.find? (fun x => x.id == taskId) = some t)
    (hAuth : t.created_by = actor.id ∨ actor.role = "admin")
    (hHas : hasUpdateField p = true)
    (hChecks : updateChecksOk p = true) :
    updateTask actor taskId p s =
      (⟨200, "Task updated successfully", some (applyUpdate p t)⟩,
       { s with tasks := s.tasks.map (fun x => if x.id == taskId then applyUpdate p x else x) }) := by
  have hStu : (actor.role == "student") = false := by
    simp only [beq_eq_false_iff_ne, ne_eq]; exact hNotStu
  have hCond : (t.created_by != actor.id && actor.role != "admin") = false := by
    rcases hAuth with hA | hA
    · simp [hA]
    · simp [hA]
  simp only [updateTask, hFind, hStu, Bool.false_eq_true, if_false, hCond, hHas,
    Bool.not_true, hChecks, if_true]

/-- The teacher/admin branch of updateTask with an updateData the store
CHECK rejects: 500 and an unchanged store. -/
theorem updateTask_nonstudent_badchecks (actor : User) (taskId : Nat) (p : TaskPayload)
    (s : Store) (t : Task)
    (hNotStu : actor.role ≠ "student")
    (hFind : s.tasks.find? (fun x => x.id == taskId) = some t)
    (hAuth : t.created_by = actor.id ∨ actor.role = "admin")
    (hHas : hasUpdateField p = true)
    (hChecks : updateChecksOk p = false) :
    updateTask actor taskId p s = (⟨500, "Failed to update task", none⟩, s) := by
  have hStu : (actor.role == "student") = false := by
    simp only [beq_eq_false_iff_ne, ne_eq]; exact hNotStu
  have hCond : (t.created_by != actor.id && actor.role != "admin") = false := by
    rcases hAuth with hA | hA
    · simp [hA]
    · simp [hA]
  simp only [updateTask, hFind, hStu, Bool.false_eq_true, if_false, hCond, hHas,
    Bool.not_true, hChecks, if_true]

/-! ## C2: the student update surface -/

/-- Counterexample for C2: the claim says a student payload touching any
field other than status fails with ValidationError; in the code the payload
{status: "in-progress", title: "hacked"} on an assigned task succeeds with
200 and silently applies only status (the title stays "orig"). -/
theorem student_update_extra_fields_cx :
    (updateTask stu1 1 payload2 store2).1.status = 200 ∧
    (updateTask stu1 1 payload2 store2).2.tasks =
      [{ baseTask with status := "in-progress" }] := by decide

/-- C2 amended: for a student on an assigned task, a payload with no truthy
status fails with 400 "Students can only update task status"; a payload
carrying a valid status succeeds with 200 and applies ONLY the status, all
other payload fields being silently ignored. -/
theorem student_update_status_only_amended (actor : User) (taskId : Nat)
    (p : TaskPayload) (s : Store) (t : Task)
    (hRole : actor.role = "student")
    (hFind : s.tasks.find? (fun x => x.id == taskId) = some t)
    (hAsn : t.assignee_id = some actor.id) :
    (strTruthy p.status = false →
      updateTask actor taskId p s =
        (⟨400, "Students can only update task status", none⟩, s))
    ∧ (∀ v, p.status = some v → statusOk v = true →
        (updateTask actor taskId p s).1.status = 200 ∧
        (updateTask actor taskId p s).1.task = some { t with status := v } ∧
        (updateTask actor taskId p s).2.tasks =
          s.tasks.map (fun x => if x.id == taskId then { x with status := v } else x)) := by
  refine ⟨fun hS => updateTask_student_nostatus actor taskId p s t hRole hFind hAsn hS,
    fun v hv hOk => ?_⟩
  rw [updateTask_student_ok actor taskId p s t v hRole hFind hAsn hv hOk]
  refine ⟨rfl, rfl, ?_⟩
  dsimp only
  split <;> simp [pushNotif]

/-- Witness for C2 amended, at the concrete store of the counterexample:
a title-only payload is refused, the mixed payload applies only status. -/
theorem student_update_status_only_amended_witness :
    (stu1.role = "student" ∧
     store2.tasks.find? (fun x => x.id == 1) = some baseTask ∧
     baseTask.assignee_id = some stu1.id) ∧
    ((strTruthy payload2.status = false →
      updateTask stu1 1 payload2 store2 =
        (⟨400, "Students can only update task status", none⟩, store2))
    ∧ (∀ v, payload2.status = some v → statusOk v = true →
        (updateTask stu1 1 payload2 store2).1.status = 200 ∧
        (updateTask stu1 1 payload2 store2).1.task = some { baseTask with status := v } ∧
        (updateTask stu1 1 payload2 store2).2.tasks =
          store2.tasks.map (fun x => if x.id == 1 then { x with status := v } else x))) :=
  ⟨by decide,
   student_update_status_only_amended stu1 1 payload2 store2 baseTask
     (by decide) (by decide) (by decide)⟩

/-! ## C4: the task_completed dispatch -/

/-- Counterexample for C4: the claim requires a dispatch only on a genuine
transition (task not already completed); in the code the task of store4 is
already completed and carries its completion notification, yet a further
student update with {status: "completed"} succeeds and dispatches a second
task_completed notification for the same (task, creator) pair. -/
theorem task_completed_no_transition_cx :
    ({ baseTask with status := "completed" } : Task).status = "completed" ∧
    (updateTask stu1 1 (statusPayload "completed") store4).1.status = 200 ∧
    ((updateTask stu1 1 (statusPayload "completed") store4).2.notifications.countP
      (fun n => n.type == "task_completed" && n.user_id == 1 && n.task_id == some 1)) = 2 := by
  decide

/-- C4 amended: when a student updates an assigned task with a valid
status, exactly one task_completed notification addressed to the creator of
the task is appended if and only if the NEW status is "completed" — the
previous status of the task is never consulted. -/
theorem student_completed_dispatch_amended (actor : User) (taskId : Nat)
    (p : TaskPayload) (s : Store) (t : Task) (v : String)
    (hRole : actor.role = "student")
    (hFind : s.tasks.find? (fun x => x.id == taskId) = some t)
    (hAsn : t.assignee_id = some actor.id)
    (hv : p.status = some v) (hOk : statusOk v = true)
    (hCb : t.created_by ≠ 0) :
    (updateTask actor taskId p s).1.status = 200 ∧
    (updateTask actor taskId p s).2.notifications =
      (if v = "completed" then
        s.notifications ++
          [mkCompletedNotif (studentDisplayName s actor) { t with status := v } t.created_by]
      else s.notifications) := by
  rw [updateTask_student_ok actor taskId p s t v hRole hFind hAsn hv hOk]
  refine ⟨rfl, ?_⟩
  dsimp only
  by_cases hc : v = "completed"
  · simp [hc, hCb, pushNotif]
  · simp [hc]

/-- Witness for C4 amended at the already-completed task of store4: the new
status "completed" appends exactly one further completion notification. -/
theorem student_completed_dispatch_amended_witness :
    (stu1.role = "student" ∧
     store4.tasks.find? (fun x => x.id == 1) = some { baseTask with status := "completed" } ∧
     ({ baseTask with status := "completed" } : Task).assignee_id = some stu1.id ∧
     (statusPayload "completed").status = some "completed" ∧
     statusOk "completed" = true ∧
     ({ baseTask with status := "completed" } : Task).created_by ≠ 0) ∧
    ((updateTask stu1 1 (statusPayload "completed") store4).1.status = 200 ∧
     (updateTask stu1 1 (statusPayload "completed") store4).2.notifications =
      (if "completed" = "completed" then
        store4.notifications ++
          [mkCompletedNotif (studentDisplayName store4 stu1)
            { ({ baseTask with status := "completed" } : Task) with status := "completed" }
            ({ baseTask with status := "completed" } : Task).created_by]
      else store4.notifications)) :=
  ⟨by decide,
   student_completed_dispatch_amended stu1 1 (statusPayload "completed") store4
     { baseTask with status := "completed" } "completed"
     (by decide) (by decide) (by decide) (by decide) (by decide) (by decide)⟩

/-! ## C10: status values and the store CHECK constraint -/

/-- applyUpdate of a status-only payload rewrites exactly the status. -/
theorem applyUpdate_statusPayload (v : String) (x : Task) :
    applyUpdate (statusPayload v) x = { x with status := v } := rfl

/-- Counterexample for C10: the claim says any string is stored verbatim;
for the string "bogus" the CHECK constraint of the tasks table
(src/supabase/migration.sql) rejects the write, and both the student call
and the teacher call fail with 500, leaving the store unchanged. -/
theorem status_check_constraint_cx :
    (updateTask stu1 1 (statusPayload "bogus") store2).1.status = 500 ∧
    (updateTask stu1 1 (statusPayload "bogus") store2).2 = store2 ∧
    (updateTask tch1 1 (statusPayload "bogus") store2).1.status = 500 ∧
    (updateTask tch1 1 (statusPayload "bogus") store2).2 = store2 := by decide

/-- C10 amended: the application code itself never validates status — for
every string in {todo, in-progress, completed} both the student call and
the teacher call succeed and store the value verbatim (any-to-any
transitions, with no relation to the previous status) — but for every other
nonempty string the store CHECK constraint makes both calls fail with 500
and no mutation. -/
theorem status_unvalidated_amended (s : Store) (stu tea : User) (taskId : Nat)
    (t : Task) (v : String)
    (hStu : stu.role = "student") (hTea : tea.role = "teacher")
    (hFind : s.tasks.find? (fun x => x.id == taskId) = some t)
    (hAsn : t.assignee_id = some stu.id) (hOwn : t.created_by = tea.id) :
    (statusOk v = true →
      (updateTask stu taskId (statusPayload v) s).1.status = 200 ∧
      (updateTask stu taskId (statusPayload v) s).2.tasks =
        s.tasks.map (fun x => if x.id == taskId then { x with status := v } else x) ∧
      (updateTask tea taskId (statusPayload v) s).1.status = 200 ∧
      (updateTask tea taskId (statusPayload v) s).2.tasks =
        s.tasks.map (fun x => if x.id == taskId then { x with status := v } else x))
    ∧ (statusOk v = false → v.isEmpty = false →
      (updateTask stu taskId (statusPayload v) s).1.status = 500 ∧
      (updateTask stu taskId (statusPayload v) s).2 = s ∧
      (updateTask tea taskId (statusPayload v) s).1.status = 500 ∧
      (updateTask tea taskId (statusPayload v) s).2 = s) := by
  have hvs : (statusPayload v).status = some v := rfl
  have hHas : hasUpdateField (statusPayload v) = true := by
    simp [hasUpdateField, statusPayload]
  constructor
  · intro hOk
    have hChecks : updateChecksOk (statusPayload v) = true := by
      simp [updateChecksOk, statusPayload, hOk]
    refine ⟨?_, ?_, ?_, ?_⟩
    · rw [updateTask_student_ok stu taskId (statusPayload v) s t v hStu hFind hAsn hvs hOk]
    · rw [updateTask_student_ok stu taskId (statusPayload v) s t v hStu hFind hAsn hvs hOk]
      dsimp only
      split <;> simp [pushNotif]
    · rw [updateTask_nonstudent_ok tea taskId (statusPayload v) s t
        (by rw [hTea]; decide) hFind (Or.inl hOwn) hHas hChecks]
    · rw [updateTask_nonstudent_ok tea taskId (statusPayload v) s t
        (by rw [hTea]; decide) hFind (Or.inl hOwn) hHas hChecks]
      simp [applyUpdate_statusPayload]
  · intro hOk hE
    have hChecks : updateChecksOk (statusPayload v) = false := by
      simp [updateChecksOk, statusPayload, hOk]
    rw [updateTask_student_badstatus stu taskId (statusPayload v) s t v hStu hFind hAsn hvs hE hOk,
      updateTask_nonstudent_badchecks tea taskId (statusPayload v) s t
        (by rw [hTea]; decide) hFind (Or.inl hOwn) hHas hChecks]
    exact ⟨rfl, rfl, rfl, rfl⟩

/-- Witness for C10 amended at store2 with v = "in-progress" (accepted
verbatim) — the rejected side is exercised by the counterexample input. -/
theorem status_unvalidated_amended_witness :
    (stu1.role = "student" ∧ tch1.role = "teacher" ∧
     store2.tasks.find? (fun x => x.id == 1) = some baseTask ∧
     baseTask.assignee_id = some stu1.id ∧ baseTask.created_by = tch1.id ∧
     statusOk "in-progress" = true) ∧
    ((updateTask stu1 1 (statusPayload "in-progress") store2).1.status = 200 ∧
     (updateTask stu1 1 (statusPayload "in-progress") store2).2.tasks =
       store2.tasks.map (fun x => if x.id == 1 then { x with status := "in-progress" } else x) ∧
     (updateTask tch1 1 (statusPayload "in-progress") store2).1.status = 200 ∧
     (updateTask tch1 1 (statusPayload "in-progress") store2).2.tasks =
       store2.tasks.map (fun x => if x.id == 1 then { x with status := "in-progress" } else x)) :=
  ⟨by decide,
   (status_unvalidated_amended store2 stu1 tch1 1 baseTask "in-progress"
     (by decide) (by decide) (by decide) (by decide) (by decide)).1 (by decide)⟩

/-! ## Sorting lemmas for getTasks -/

/-- Membership through the descending insertion. -/
theorem mem_insertDesc (t x : Task) (l : List Task) :
    x ∈ insertDesc t l ↔ x = t ∨ x ∈ l := by
  induction l with
  | nil => simp [insertDesc]
  | cons a as ih =>
    simp only [insertDesc]
    split
    · simp
    · simp only [List.mem_cons, ih]
      tauto

/-- Membership through the created_at-descending sort. -/
theorem mem_sortByCreatedAtDesc (x : Task) (l : List Task) :
    x ∈ sortByCreatedAtDesc l ↔ x ∈ l := by
  induction l with
  | nil => simp [sortByCreatedAtDesc]
  | cons a as ih =>
    simp only [sortByCreatedAtDesc, mem_insertDesc, ih, List.mem_cons]

/-- The descending insertion adds one element. -/
theorem length_insertDesc (t : Task) (l : List Task) :
    (insertDesc t l).length = l.length + 1 := by
  induction l with
  | nil => simp [insertDesc]
  | cons a as ih =>
    simp only [insertDesc]
    split
    · simp
    · simp [ih]

/-- The created_at-descending sort preserves length. -/
theorem length_sortByCreatedAtDesc (l : List Task) :
    (sortByCreatedAtDesc l).length = l.length := by
  induction l with
  | nil => rfl
  | cons a as ih => simp [sortByCreatedAtDesc, length_insertDesc, ih]

/-! ## C3: admin access -/

/-- Counterexample for C3: the claim says getTasks of an admin lists every
task in the store; in the code the admin is filtered like a teacher
(created_by == admin), so the task created by teacher 1 is invisible to the
admin even though it is in the store. -/
theorem admin_getTasks_not_all_cx :
    adm1.role = "admin" ∧
    ({ baseTask with assignee_id := none } : Task) ∈ store3.tasks ∧
    getTasksList adm1 defaultTaskQuery store3 = [] := by decide

/-- C3 amended: an admin passes getTask, updateTask and deleteTask with no
created_by or assignee_id condition, but getTasks for an admin applies the
same created_by filter as for a teacher: it lists exactly the tasks the
admin created, not every task in the store. -/
theorem admin_access_amended (a : User) (s : Store) (i : Nat) (t : Task)
    (p : TaskPayload)
    (hRole : a.role = "admin")
    (hFind : s.tasks.find? (fun x => x.id == i) = some t)
    (hHas : hasUpdateField p = true) (hChecks : updateChecksOk p = true)
    (hLen : s.tasks.length ≤ 10) :
    (getTask a i s).status = 200
    ∧ (∀ u, u ∈ getTasksList a defaultTaskQuery s ↔ u ∈ s.tasks ∧ u.created_by = a.id)
    ∧ (updateTask a i p s).1.status = 200
    ∧ (deleteTask a i s).1.status = 200
    ∧ (deleteTask a i s).2.tasks = s.tasks.filter (fun x => !(x.id == i)) := by
  refine ⟨?_, ?_, ?_, ?_, ?_⟩
  · simp [getTask, hFind, hRole]
  · intro u
    have hbase : getTasksList a defaultTaskQuery s =
        (sortByCreatedAtDesc (s.tasks.filter (fun x => x.created_by == a.id))).take 10 := by
      simp [getTasksList, defaultTaskQuery, hRole]
    have hlen : (sortByCreatedAtDesc (s.tasks.filter (fun x => x.created_by == a.id))).length ≤ 10 :=
      le_trans (le_of_eq (length_sortByCreatedAtDesc _))
        (le_trans (List.length_filter_le _ _) hLen)
    rw [hbase, List.take_of_length_le hlen, mem_sortByCreatedAtDesc, List.mem_filter,
      beq_iff_eq]
  · rw [updateTask_nonstudent_ok a i p s t (by rw [hRole]; decide) hFind (Or.inr hRole)
      hHas hChecks]
  · simp [deleteTask, hFind, hRole]
  · simp [deleteTask, hFind, hRole]

/-- Witness for C3 amended at store3: the admin reads, edits and deletes
the task of teacher 1, while their getTasks lists only admin-created
tasks (here: none). -/
theorem admin_access_amended_witness :
    (adm1.role = "admin" ∧
     store3.tasks.find? (fun x => x.id == 1) = some { baseTask with assignee_id := none } ∧
     hasUpdateField (statusPayload "completed") = true ∧
     updateChecksOk (statusPayload "completed") = true ∧
     store3.tasks.length ≤ 10) ∧
    ((getTask adm1 1 store3).status = 200
     ∧ (∀ u, u ∈ getTasksList adm1 defaultTaskQuery store3 ↔
          u ∈ store3.tasks ∧ u.created_by = adm1.id)
     ∧ (updateTask adm1 1 (statusPayload "completed") store3).1.status = 200
     ∧ (deleteTask adm1 1 store3).1.status = 200
     ∧ (deleteTask adm1 1 store3).2.tasks = store3.tasks.filter (fun x => !(x.id == 1))) :=
  ⟨by decide,
   admin_access_amended adm1 store3 1 { baseTask with assignee_id := none }
     (statusPayload "completed") (by decide) (by decide) (by decide) (by decide) (by decide)⟩

/-! ## C5: class reads by non-member students -/

/-- Counterexample for C5: the claim says every class read exposed to
students denies a non-member with ForbiddenError; getClass does (403), but
getClassMembers performs no authorization at all and returns the member
data of class 1 to the non-member student 3 with status 200. -/
theorem getClassMembers_no_auth_cx :
    stu2.role = "student" ∧
    store5.class_members.find? (fun m => m.class_id == 1 && m.user_id == stu2.id) = none ∧
    (getClass stu2 1 store5).status = 403 ∧
    (getClassMembers stu2 1 store5).1 = 200 ∧
    (getClassMembers stu2 1 store5).2 = [stu1] := by decide

/-- C5 amended: for a non-member student, getClass denies access with 403
after the membership lookup, but getClassMembers never consults the actor:
it answers 200 with the joined member list for any authenticated caller. -/
theorem class_read_auth_amended (actor : User) (cid : Nat) (s : Store) (cls : Klass)
    (hRole : actor.role = "student")
    (hFind : s.classes.find? (fun c => c.id == cid) = some cls)
    (hMem : s.class_members.find? (fun m => m.class_id == cid && m.user_id == actor.id) = none) :
    getClass actor cid s = ⟨403, "Forbidden — you are not a member of this class", none⟩
    ∧ (getClassMembers actor cid s).1 = 200
    ∧ (getClassMembers actor cid s).2 =
        (s.class_members.filter (fun m => m.class_id == cid)).filterMap
          (fun m => s.users.find? (fun u => u.id == m.user_id)) := by
  refine ⟨?_, rfl, rfl⟩
  simp [getClass, hFind, hRole, hMem]

/-- Witness for C5 amended at store5 with the non-member student 3. -/
theorem class_read_auth_amended_witness :
    (stu2.role = "student" ∧
     store5.classes.find? (fun c => c.id == 1) = some klass1 ∧
     store5.class_members.find? (fun m => m.class_id == 1 && m.user_id == stu2.id) = none) ∧
    (getClass stu2 1 store5 = ⟨403, "Forbidden — you are not a member of this class", none⟩
     ∧ (getClassMembers stu2 1 store5).1 = 200
     ∧ (getClassMembers stu2 1 store5).2 =
         (store5.class_members.filter (fun m => m.class_id == 1)).filterMap
           (fun m => store5.users.find? (fun u => u.id == m.user_id))) :=
  ⟨by decide,
   class_read_auth_amended stu2 1 store5 klass1 (by decide) (by decide) (by decide)⟩

/-! ## C6: the joinClass cascade -/

/-- Counterexample for C6: the claim calls the already-member failure a
ConflictError, an error kind distinct from ValidationError; in the code
both the own-teacher failure (a ValidationError per the spec) and the
already-member failure answer the very same status 400 — the member case is
not a distinct error kind, it differs only in message text. -/
theorem joinClass_conflict_status_cx :
    (joinClass stu1 (some "abc12345") store5).1.status = 400 ∧
    (joinClass tch1 (some "abc12345") store5).1.status = 400 := by decide

/-- C6 amended: joinClass fails 404 when no class matches the trimmed code,
400 "You are the teacher of this class" for the own teacher, 400 (not a
distinct status — same as the ValidationError status, distinguished only by
the message "You are already a member of this class") for an existing
member, and otherwise inserts exactly one membership row and returns the
class. -/
theorem joinClass_flow_amended (actor : User) (code : String) (s : Store)
    (hc : code.isEmpty = false) :
    (s.classes.find? (fun c => c.invite_code == jsTrim code) = none →
      joinClass actor (some code) s = (⟨404, "Invalid invite code", none⟩, s))
    ∧ (∀ cls, s.classes.find? (fun c => c.invite_code == jsTrim code) = some cls →
        cls.teacher_id = actor.id →
        joinClass actor (some code) s = (⟨400, "You are the teacher of this class", none⟩, s))
    ∧ (∀ cls, s.classes.find? (fun c => c.invite_code == jsTrim code) = some cls →
        cls.teacher_id ≠ actor.id →
        (s.class_members.find? (fun m => m.class_id == cls.id && m.user_id == actor.id)).isSome = true →
        joinClass actor (some code) s = (⟨400, "You are already a member of this class", none⟩, s))
    ∧ (∀ cls, s.classes.find? (fun c => c.invite_code == jsTrim code) = some cls →
        cls.teacher_id ≠ actor.id →
        (s.class_members.find? (fun m => m.class_id == cls.id && m.user_id == actor.id)).isSome = false →
        joinClass actor (some code) s =
          (⟨200, "Joined class \"" ++ cls.name ++ "\" successfully", some cls⟩,
           { s with class_members := s.class_members ++ [⟨cls.id, actor.id⟩] })) := by
  have hT : strTruthy (some code) = true := by simp [strTruthy, hc]
  refine ⟨fun hF => ?_, fun cls hF hTe => ?_, fun cls hF hTe hM => ?_, fun cls hF hTe hM => ?_⟩
  · simp [joinClass, hT, hF]
  · simp [joinClass, hT, hF, hTe]
  · have hTe' : (cls.teacher_id == actor.id) = false := by
      simp only [beq_eq_false_iff_ne, ne_eq]; exact hTe
    simp [joinClass, hT, hF, hTe', hM]
  · have hTe' : (cls.teacher_id == actor.id) = false := by
      simp only [beq_eq_false_iff_ne, ne_eq]; exact hTe
    simp [joinClass, hT, hF, hTe', hM]

/-- Witness for C6 amended: student 3 joins class 1 of store5 through its
invite code, inserting the one membership row (1, 3). -/
theorem joinClass_flow_amended_witness :
    ("abc12345" : String).isEmpty = false ∧
    joinClass stu2 (some "abc12345") store5 =
      (⟨200, "Joined class \"" ++ klass1.name ++ "\" successfully", some klass1⟩,
       { store5 with class_members := store5.class_members ++ [⟨klass1.id, stu2.id⟩] }) :=
  ⟨by decide,
   (joinClass_flow_amended stu2 "abc12345" store5 (by decide)).2.2.2 klass1
     (by decide) (by decide) (by decide)⟩

/-! ## C9: the deleteClass frame -/

/-- C9: a successful deleteClass detaches (nulls class_id on) every task
that referenced the class while keeping all their other fields and deleting
none, removes every membership row of the class, removes the class itself,
and leaves users and notifications untouched. -/
theorem deleteClass_frame (actor : User) (cid : Nat) (s : Store)
    (h : (deleteClass actor cid s).1.status = 200) :
    (deleteClass actor cid s).2.tasks = s.tasks.map (detachTask cid)
    ∧ (deleteClass actor cid s).2.tasks.length = s.tasks.length
    ∧ (∀ t ∈ s.tasks, t.class_id = some cid →
        { t with class_id := none } ∈ (deleteClass actor cid s).2.tasks)
    ∧ (∀ t ∈ s.tasks, t.class_id ≠ some cid → t ∈ (deleteClass actor cid s).2.tasks)
    ∧ (∀ m ∈ (deleteClass actor cid s).2.class_members, m.class_id ≠ cid)
    ∧ (∀ c ∈ (deleteClass actor cid s).2.classes, c.id ≠ cid)
    ∧ (deleteClass actor cid s).2.users = s.users
    ∧ (deleteClass actor cid s).2.notifications = s.notifications := by
  cases hF : s.classes.find? (fun c => c.id == cid) with
  | none => simp [deleteClass, hF] at h
  | some cls =>
    cases hA : cls.teacher_id != actor.id && actor.role != "admin" with
    | true => simp [deleteClass, hF, hA] at h
    | false =>
      have hred : deleteClass actor cid s =
          (⟨200, "Class deleted successfully"⟩,
           dbDeleteClass cid { s with tasks := s.tasks.map (detachTask cid) }) := by
        simp [deleteClass, hF, hA]
      rw [hred]
      refine ⟨rfl, by simp [dbDeleteClass], fun t ht hcid => ?_, fun t ht hcid => ?_,
        fun m hm => ?_, fun c hc => ?_, rfl, rfl⟩
      · have : detachTask cid t = { t with class_id := none } := by
          simp [detachTask, hcid]
        simp only [dbDeleteClass]
        exact this ▸ List.mem_map_of_mem (detachTask cid) ht
      · have : detachTask cid t = t := by
          have : (t.class_id == some cid) = false := by
            simp only [beq_eq_false_iff_ne, ne_eq]; exact hcid
          simp [detachTask, this]
        simp only [dbDeleteClass]
        exact this ▸ List.mem_map_of_mem (detachTask cid) ht
      · simp only [dbDeleteClass, List.mem_filter] at hm
        simpa using hm.2
      · simp only [dbDeleteClass, List.mem_filter] at hc
        simpa using hc.2


/-- Witness for C9 at store9: deleting class 1 (owned by teacher 1, one
member, three referencing tasks) keeps the three tasks with nulled
class_id, removes the membership row and the class. -/
theorem deleteClass_frame_witness :
    (deleteClass tch1 1 store9).1.status = 200 ∧
    ((deleteClass tch1 1 store9).2.tasks = store9.tasks.map (detachTask 1)
     ∧ (deleteClass tch1 1 store9).2.tasks.length = store9.tasks.length
     ∧ (∀ t ∈ store9.tasks, t.class_id = some 1 →
         { t with class_id := none } ∈ (deleteClass tch1 1 store9).2.tasks)
     ∧ (∀ t ∈ store9.tasks, t.class_id ≠ some 1 → t ∈ (deleteClass tch1 1 store9).2.tasks)
     ∧ (∀ m ∈ (deleteClass tch1 1 store9).2.class_members, m.class_id ≠ 1)
     ∧ (∀ c ∈ (deleteClass tch1 1 store9).2.classes, c.id ≠ 1)
     ∧ (deleteClass tch1 1 store9).2.users = store9.users
     ∧ (deleteClass tch1 1 store9).2.notifications = store9.notifications) :=
  ⟨by decide, deleteClass_frame tch1 1 store9 (by decide)⟩

/-! ## C1: idempotence of the overdue scan -/

/-- The scan loop never touches the tasks table. -/
theorem scanLoop_tasks (L : List Task) (n : Nat) (st : Store) :
    (scanLoop L n st).2.tasks = st.tasks := by
  induction L generalizing n st with
  | nil => rfl
  | cons t rest ih =>
    simp only [scanLoop]
    split
    · exact ih n st
    · rw [ih]
      rfl

/-- The scan loop only appends notifications: existing rows survive. -/
theorem scanLoop_notif_mono (L : List Task) (n : Nat) (st : Store) :
    ∀ nf ∈ st.notifications, nf ∈ (scanLoop L n st).2.notifications := by
  induction L generalizing n st with
  | nil => exact fun nf h => h
  | cons t rest ih =>
    intro nf h
    simp only [scanLoop]
    split
    · exact ih n st nf h
    · exact ih (n + 1) (pushNotif st (mkOverdueNotif t)) nf
        (by simp [pushNotif]; exact Or.inl h)

/-- An existing (task, type, recipient) match survives the scan loop. -/
theorem scanLoop_any_mono (L : List Task) (n : Nat) (st : Store) (t : Task)
    (h : st.notifications.any (overdueMatch t) = true) :
    (scanLoop L n st).2.notifications.any (overdueMatch t) = true := by
  rw [List.any_eq_true] at h ⊢
  obtain ⟨nf, hmem, hmatch⟩ := h
  exact ⟨nf, scanLoop_notif_mono L n st nf hmem, hmatch⟩

/-- The freshly dispatched overdue notification matches its own task. -/
theorem overdueMatch_mk_self (t : Task) :
    overdueMatch t (mkOverdueNotif t) = true := by
  simp [overdueMatch, mkOverdueNotif]

/-- A dispatched overdue notification only matches tasks with the id it
was dispatched for. -/
theorem overdueMatch_mk_id (t u : Task)
    (h : overdueMatch t (mkOverdueNotif u) = true) : u.id = t.id := by
  simp only [overdueMatch, mkOverdueNotif, Bool.and_eq_true, beq_iff_eq,
    Option.some.injEq] at h
  exact h.1.1

/-- After the scan loop, every processed task has a matching task_overdue
notification addressed to its creator. -/
theorem scanLoop_covered (L : List Task) (n : Nat) (st : Store) :
    ∀ t ∈ L, (scanLoop L n st).2.notifications.any (overdueMatch t) = true := by
  induction L generalizing n st with
  | nil => intro t h; cases h
  | cons u rest ih =>
    intro t ht
    rcases List.mem_cons.mp ht with rfl | hrest
    · simp only [scanLoop]
      cases hA : st.notifications.any (overdueMatch t) with
      | true => simp only [if_pos rfl]; exact scanLoop_any_mono rest n st t hA
      | false =>
        simp only [Bool.false_eq_true, if_false]
        refine scanLoop_any_mono rest (n + 1) _ t ?_
        simp [pushNotif, overdueMatch_mk_self]
    · simp only [scanLoop]
      split
      · exact ih n st t hrest
      · exact ih (n + 1) _ t hrest

/-- A scan loop whose every task is already matched dispatches nothing. -/
theorem scanLoop_noop (L : List Task) (n : Nat) (st : Store)
    (h : ∀ t ∈ L, st.notifications.any (overdueMatch t) = true) :
    scanLoop L n st = (n, st) := by
  induction L with
  | nil => rfl
  | cons u rest ih =>
    simp only [scanLoop, h u (List.mem_cons_self u rest), if_pos rfl]
    exact ih fun t ht => h t (List.mem_cons_of_mem u ht)

/-- Frame lemma: processing tasks whose ids all differ from the id of t
changes neither the match count for t nor its existence. -/
theorem scanLoop_countP_frame (L : List Task) (n : Nat) (st : Store) (t : Task)
    (h : ∀ u ∈ L, u.id ≠ t.id) :
    (scanLoop L n st).2.notifications.countP (overdueMatch t) =
      st.notifications.countP (overdueMatch t) ∧
    (scanLoop L n st).2.notifications.any (overdueMatch t) =
      st.notifications.any (overdueMatch t) := by
  induction L generalizing n st with
  | nil => exact ⟨rfl, rfl⟩
  | cons u rest ih =>
    have hmatch : overdueMatch t (mkOverdueNotif u) = false := by
      cases hm : overdueMatch t (mkOverdueNotif u) with
      | false => rfl
      | true => exact absurd (overdueMatch_mk_id t u hm) (h u (List.mem_cons_self u rest))
    have hrest : ∀ v ∈ rest, v.id ≠ t.id := fun v hv => h v (List.mem_cons_of_mem u hv)
    simp only [scanLoop]
    split
    · exact ih n st hrest
    · obtain ⟨h1, h2⟩ := ih (n + 1) (pushNotif st (mkOverdueNotif u)) hrest
      refine ⟨?_, ?_⟩
      · rw [h1]; simp [pushNotif, List.countP_append, hmatch]
      · rw [h2]; simp [pushNotif, hmatch]

/-- Dispatch characterization: when the processed tasks have pairwise
distinct ids, the match count of each processed task grows by one exactly
when no match existed before the loop, and is unchanged otherwise. -/
theorem scanLoop_countP (L : List Task) (n : Nat) (st : Store) (t : Task)
    (ht : t ∈ L) (hids : (L.map Task.id).Nodup) :
    (scanLoop L n st).2.notifications.countP (overdueMatch t) =
      st.notifications.countP (overdueMatch t) +
        (if st.notifications.any (overdueMatch t) = true then 0 else 1) := by
  induction L generalizing n st with
  | nil => cases ht
  | cons u rest ih =>
    have hnodup := hids
    simp only [List.map_cons, List.nodup_cons, List.mem_map] at hnodup
    rcases List.mem_cons.mp ht with rfl | hrest
    · have hrestids : ∀ v ∈ rest, v.id ≠ t.id := by
        intro v hv hEq
        exact hnodup.1 ⟨v, hv, hEq⟩
      simp only [scanLoop]
      cases hA : st.notifications.any (overdueMatch t) with
      | true =>
        rw [if_pos rfl, (scanLoop_countP_frame rest n st t hrestids).1]
        simp
      | false =>
        rw [if_neg (by simp),
          (scanLoop_countP_frame rest (n + 1) (pushNotif st (mkOverdueNotif t)) t hrestids).1]
        simp [pushNotif, List.countP_append, overdueMatch_mk_self]
    · have hne : u.id ≠ t.id := by
        intro hEq
        refine hnodup.1 ⟨t, hrest, ?_⟩
        exact hEq.symm
      have hmatch : overdueMatch t (mkOverdueNotif u) = false := by
        cases hm : overdueMatch t (mkOverdueNotif u) with
        | false => rfl
        | true => exact absurd (overdueMatch_mk_id t u hm) hne
      have hrestnodup : (rest.map Task.id).Nodup := by
        simp only [List.map_cons, List.nodup_cons] at hids
        exact hids.2
      simp only [scanLoop]
      split
      · exact ih n st hrest hrestnodup
      · rw [ih (n + 1) (pushNotif st (mkOverdueNotif u)) hrest hrestnodup]
        simp [pushNotif, List.countP_append, List.any_append, hmatch]

/-- C1: for a store with distinct task ids, the first checkOverdueTasks
call dispatches a task_overdue notification for an overdue task exactly
when none exists for its (task_id, created_by) pair — the match count grows
by one in that case and is unchanged otherwise — and an immediately
repeated call dispatches a count of zero new notifications and returns the
store completely unchanged. -/
theorem scanOverdue_idempotent (today : Nat) (s : Store)
    (hids : (s.tasks.map Task.id).Nodup) :
    (∀ t ∈ s.tasks.filter (isOverdue today),
      (checkOverdueTasks today s).2.notifications.countP (overdueMatch t) =
        s.notifications.countP (overdueMatch t) +
          (if s.notifications.any (overdueMatch t) = true then 0 else 1))
    ∧ (checkOverdueTasks today ((checkOverdueTasks today s).2)).1 = 0
    ∧ (checkOverdueTasks today ((checkOverdueTasks today s).2)).2 =
        (checkOverdueTasks today s).2 := by
  have hsub : List.Sublist ((s.tasks.filter (isOverdue today)).map Task.id)
      (s.tasks.map Task.id) :=
    List.Sublist.map Task.id (List.filter_sublist _)
  have hFilterIds : ((s.tasks.filter (isOverdue today)).map Task.id).Nodup :=
    hids.sublist hsub
  refine ⟨fun t ht => scanLoop_countP _ 0 s t ht hFilterIds, ?_, ?_⟩
  · have htasks : (checkOverdueTasks today s).2.tasks = s.tasks := scanLoop_tasks _ 0 s
    have hcov : ∀ t ∈ (checkOverdueTasks today s).2.tasks.filter (isOverdue today),
        (checkOverdueTasks today s).2.notifications.any (overdueMatch t) = true := by
      rw [htasks]
      exact fun t ht => scanLoop_covered _ 0 s t ht
    rw [checkOverdueTasks, scanLoop_noop _ 0 _ hcov]
  · have htasks : (checkOverdueTasks today s).2.tasks = s.tasks := scanLoop_tasks _ 0 s
    have hcov : ∀ t ∈ (checkOverdueTasks today s).2.tasks.filter (isOverdue today),
        (checkOverdueTasks today s).2.notifications.any (overdueMatch t) = true := by
      rw [htasks]
      exact fun t ht => scanLoop_covered _ 0 s t ht
    rw [checkOverdueTasks, scanLoop_noop _ 0 _ hcov]

/-- Witness for C1 at store1 (one overdue task, one fresh task, no prior
notifications), scanned on day 10. -/
theorem scanOverdue_idempotent_witness :
    (store1.tasks.map Task.id).Nodup ∧
    ((∀ t ∈ store1.tasks.filter (isOverdue 10),
      (checkOverdueTasks 10 store1).2.notifications.countP (overdueMatch t) =
        store1.notifications.countP (overdueMatch t) +
          (if store1.notifications.any (overdueMatch t) = true then 0 else 1))
    ∧ (checkOverdueTasks 10 ((checkOverdueTasks 10 store1).2)).1 = 0
    ∧ (checkOverdueTasks 10 ((checkOverdueTasks 10 store1).2)).2 =
        (checkOverdueTasks 10 store1).2) :=
  ⟨by decide, scanOverdue_idempotent 10 store1 (by decide)⟩

end TMB
